import Mathlib

/-!
Shallow embedding of the two AccessKit C example programs
(`bindings/c/examples/sdl/hello_world.c` and
`bindings/c/examples/windows/hello_world.c`).

Both examples drive the opaque AccessKit C API.  The parts of that API the
examples observe (node builders, tree updates, optional node ids) are embedded
as plain Lean structures; opaque platform handles (`accesskit_node_class_set`,
`SDL_mutex`, HWND, action-handler callbacks, the UIA init marker) carry no
observable data in the examples and are embedded as `Nat` tokens.  Node ids
(`accesskit_node_id`, a non-zero 64-bit value) are embedded as `Nat`.
-/

/-- `accesskit_node_id`: a non-zero unsigned 64-bit integer, embedded as `Nat`. -/
abbrev accesskit_node_id := Nat

/-- `accesskit_opt_node_id`: `has_value`/`value` pair, embedded as `Option`. -/
abbrev accesskit_opt_node_id := Option accesskit_node_id

/-- `accesskit_node_id_new`: returns a value only for non-zero input. -/
def accesskit_node_id_new (n : Nat) : accesskit_opt_node_id :=
  if n = 0 then none else some n

/-- `accesskit_rect`: the four coordinates are C doubles; the literals used by the
examples (20.0, 60.0, 100.0) are exactly representable, embedded as `Rat`. -/
structure accesskit_rect where
  x0 : Rat
  y0 : Rat
  x1 : Rat
  y1 : Rat
deriving DecidableEq

/-- The `accesskit_role` values used by the examples. -/
inductive accesskit_role where
  | ACCESSKIT_ROLE_BUTTON
  | ACCESSKIT_ROLE_WINDOW
  | ACCESSKIT_ROLE_STATIC_TEXT
deriving DecidableEq

/-- `accesskit_action`: the two values the examples dispatch on, plus a
constructor standing for every other enum value of the C header. -/
inductive accesskit_action where
  | ACCESSKIT_ACTION_DEFAULT
  | ACCESSKIT_ACTION_FOCUS
  | ACCESSKIT_ACTION_OTHER (code : Nat)
deriving DecidableEq

/-- The `accesskit_default_action_verb` value used by the examples. -/
inductive accesskit_default_action_verb where
  | ACCESSKIT_DEFAULT_ACTION_VERB_CLICK
deriving DecidableEq

/-- The `accesskit_live` value used by the examples. -/
inductive accesskit_live where
  | ACCESSKIT_LIVE_POLITE
deriving DecidableEq

/-- The observable content of an `accesskit_node`, as set by the builder calls
the examples make.  String pointers that may be NULL are `Option String`. -/
structure accesskit_node where
  role : accesskit_role
  bounds : Option accesskit_rect
  name : Option String
  actions : List accesskit_action
  default_action_verb : Option accesskit_default_action_verb
  live : Option accesskit_live
  children : List accesskit_node_id
deriving DecidableEq

/-- `accesskit_node_builder` holds the same data the built node will hold. -/
abbrev accesskit_node_builder := accesskit_node

/-- `accesskit_node_builder_new`. -/
def accesskit_node_builder_new (role : accesskit_role) : accesskit_node_builder :=
  { role := role, bounds := none, name := none, actions := [],
    default_action_verb := none, live := none, children := [] }

/-- `accesskit_node_builder_set_bounds`. -/
def accesskit_node_builder_set_bounds (b : accesskit_node_builder)
    (rect : accesskit_rect) : accesskit_node_builder :=
  { b with bounds := some rect }

/-- `accesskit_node_builder_set_name`; the C signature takes a `const char *`,
so the argument is `Option String` to cover a NULL pointer. -/
def accesskit_node_builder_set_name (b : accesskit_node_builder)
    (name : Option String) : accesskit_node_builder :=
  { b with name := name }

/-- `accesskit_node_builder_add_action`. -/
def accesskit_node_builder_add_action (b : accesskit_node_builder)
    (action : accesskit_action) : accesskit_node_builder :=
  { b with actions := b.actions ++ [action] }

/-- `accesskit_node_builder_set_default_action_verb`. -/
def accesskit_node_builder_set_default_action_verb (b : accesskit_node_builder)
    (verb : accesskit_default_action_verb) : accesskit_node_builder :=
  { b with default_action_verb := some verb }

/-- `accesskit_node_builder_set_live`. -/
def accesskit_node_builder_set_live (b : accesskit_node_builder)
    (live : accesskit_live) : accesskit_node_builder :=
  { b with live := some live }

/-- `accesskit_node_builder_push_child`: appends to the child list. -/
def accesskit_node_builder_push_child (b : accesskit_node_builder)
    (child : accesskit_node_id) : accesskit_node_builder :=
  { b with children := b.children ++ [child] }

/-- `accesskit_node_builder_build`: consumes the builder; the class set is an
opaque interning cache and does not affect the built node's content. -/
def accesskit_node_builder_build (b : accesskit_node_builder)
    (classes : Nat) : accesskit_node :=
  b

/-- `accesskit_tree`. -/
structure accesskit_tree where
  root : accesskit_node_id
deriving DecidableEq

/-- `accesskit_tree_new`. -/
def accesskit_tree_new (root : accesskit_node_id) : accesskit_tree :=
  { root := root }

/-- `accesskit_tree_update`: the `ids`/`nodes` arrays (filled by index in the
C code, embedded as the lists the assignments produce), the optional `tree`
and the optional `focus`. -/
structure accesskit_tree_update where
  ids : List accesskit_node_id
  nodes : List accesskit_node
  tree : Option accesskit_tree
  focus : accesskit_opt_node_id
deriving DecidableEq

/-- `accesskit_action_request`: the fields the examples read. -/
structure accesskit_action_request where
  action : accesskit_action
  target : accesskit_node_id
deriving DecidableEq

/-- `WINDOW_ID`: `accesskit_node_id_new(1).value`. -/
def WINDOW_ID : accesskit_node_id := (accesskit_node_id_new 1).getD 0

/-- `BUTTON_1_ID`: `accesskit_node_id_new(2).value`. -/
def BUTTON_1_ID : accesskit_node_id := (accesskit_node_id_new 2).getD 0

/-- `BUTTON_2_ID`: `accesskit_node_id_new(3).value`. -/
def BUTTON_2_ID : accesskit_node_id := (accesskit_node_id_new 3).getD 0

/-- `ANNOUNCEMENT_ID`: `accesskit_node_id_new(4).value`. -/
def ANNOUNCEMENT_ID : accesskit_node_id := (accesskit_node_id_new 4).getD 0

/-- `INITIAL_FOCUS = BUTTON_1_ID`. -/
def INITIAL_FOCUS : accesskit_node_id := BUTTON_1_ID

/-- The SDL example's window title string (the Windows example's title is a
wide string not passed to any node builder). -/
def WINDOW_TITLE : String := "Hello world"

/-- `BUTTON_1_RECT = {20.0, 20.0, 100.0, 60.0}`. -/
def BUTTON_1_RECT : accesskit_rect :=
  { x0 := 20, y0 := 20, x1 := 100, y1 := 60 }

/-- `BUTTON_2_RECT = {20.0, 60.0, 100.0, 100.0}`. -/
def BUTTON_2_RECT : accesskit_rect :=
  { x0 := 20, y0 := 60, x1 := 100, y1 := 100 }

/-- The string literal `"Button 1"`. -/
def BUTTON_1_NAME : String := "Button 1"

/-- The string literal `"Button 2"`. -/
def BUTTON_2_NAME : String := "Button 2"

/-- The string literal `"You pressed button 1"`. -/
def BUTTON_1_PRESSED : String := "You pressed button 1"

/-- The string literal `"You pressed button 2"`. -/
def BUTTON_2_PRESSED : String := "You pressed button 2"

/-- `node_id_cmp`: `memcmp` equality of two node ids. -/
def node_id_cmp (id1 id2 : accesskit_node_id) : Bool :=
  id1 == id2

/-- `build_button` (identical in both examples). -/
def build_button (id : accesskit_node_id) (name : Option String)
    (classes : Nat) : accesskit_node :=
  let rect := if node_id_cmp id BUTTON_1_ID then BUTTON_1_RECT else BUTTON_2_RECT
  let builder := accesskit_node_builder_new .ACCESSKIT_ROLE_BUTTON
  let builder := accesskit_node_builder_set_bounds builder rect
  let builder := accesskit_node_builder_set_name builder name
  let builder := accesskit_node_builder_add_action builder .ACCESSKIT_ACTION_FOCUS
  let builder := accesskit_node_builder_set_default_action_verb builder
    .ACCESSKIT_DEFAULT_ACTION_VERB_CLICK
  accesskit_node_builder_build builder classes

/-- `build_announcement` (identical in both examples). -/
def build_announcement (text : Option String) (classes : Nat) : accesskit_node :=
  let builder := accesskit_node_builder_new .ACCESSKIT_ROLE_STATIC_TEXT
  let builder := accesskit_node_builder_set_name builder text
  let builder := accesskit_node_builder_set_live builder .ACCESSKIT_LIVE_POLITE
  accesskit_node_builder_build builder classes

namespace Sdl

/-- `SET_FOCUS_MSG = 0` (an `Sint32` user-event code). -/
def SET_FOCUS_MSG : Int := 0

/-- `DO_DEFAULT_ACTION_MSG = 1`. -/
def DO_DEFAULT_ACTION_MSG : Int := 1

/-- `SDLK_TAB` (the tab key sym, 9). -/
def SDLK_TAB : Nat := 9

/-- `SDLK_SPACE` (the space key sym, 32). -/
def SDLK_SPACE : Nat := 32

/-- The SDL example's `struct window_state`.  `node_classes` and `mutex` are
opaque handles embedded as `Nat` tokens. -/
structure window_state where
  focus : accesskit_node_id
  is_window_focused : Bool
  announcement : Option String
  node_classes : Nat
  mutex : Nat
deriving DecidableEq

/-- `window_state_init`: the state as initialised in `main` (fresh opaque
handles are the token 0). -/
def window_state_init : window_state :=
  { focus := INITIAL_FOCUS, is_window_focused := false, announcement := none,
    node_classes := 0, mutex := 0 }

/-- `window_state_focus`. -/
def window_state_focus (state : window_state) : accesskit_opt_node_id :=
  if state.is_window_focused then some state.focus else none

/-- `window_state_build_root` (SDL variant: sets the window title as name). -/
def window_state_build_root (state : window_state) : accesskit_node :=
  let builder := accesskit_node_builder_new .ACCESSKIT_ROLE_WINDOW
  let builder := accesskit_node_builder_push_child builder BUTTON_1_ID
  let builder := accesskit_node_builder_push_child builder BUTTON_2_ID
  let builder :=
    match state.announcement with
    | some _ => accesskit_node_builder_push_child builder ANNOUNCEMENT_ID
    | none => builder
  let builder := accesskit_node_builder_set_name builder (some WINDOW_TITLE)
  accesskit_node_builder_build builder state.node_classes

/-- `window_state_build_initial_tree`: allocates 4 slots when the announcement
is non-NULL and 3 otherwise, and fills them by index. -/
def window_state_build_initial_tree (state : window_state) : accesskit_tree_update :=
  let root := window_state_build_root state
  let button_1 := build_button BUTTON_1_ID (some BUTTON_1_NAME) state.node_classes
  let button_2 := build_button BUTTON_2_ID (some BUTTON_2_NAME) state.node_classes
  match state.announcement with
  | some a =>
      { ids := [WINDOW_ID, BUTTON_1_ID, BUTTON_2_ID, ANNOUNCEMENT_ID],
        nodes := [root, button_1, button_2,
                  build_announcement (some a) state.node_classes],
        tree := some (accesskit_tree_new WINDOW_ID),
        focus := window_state_focus state }
  | none =>
      { ids := [WINDOW_ID, BUTTON_1_ID, BUTTON_2_ID],
        nodes := [root, button_1, button_2],
        tree := some (accesskit_tree_new WINDOW_ID),
        focus := window_state_focus state }

/-- `build_tree_update_for_button_press`. -/
def build_tree_update_for_button_press (state : window_state) : accesskit_tree_update :=
  let announcement := build_announcement state.announcement state.node_classes
  let root := window_state_build_root state
  { ids := [ANNOUNCEMENT_ID, WINDOW_ID],
    nodes := [announcement, root],
    tree := none,
    focus := window_state_focus state }

/-- `window_state_press_button`: mutates the announcement and sends (on the
Unix path of `accesskit_sdl_adapter_update_if_active`) the button-press tree
update built from the updated state. -/
def window_state_press_button (state : window_state) (id : accesskit_node_id) :
    window_state × accesskit_tree_update :=
  let text := if node_id_cmp id BUTTON_1_ID then BUTTON_1_PRESSED else BUTTON_2_PRESSED
  let state := { state with announcement := some text }
  (state, build_tree_update_for_button_press state)

/-- `build_tree_update_for_focus_update`: a zero-node update carrying only the
current optional focus. -/
def build_tree_update_for_focus_update (state : window_state) : accesskit_tree_update :=
  { ids := [], nodes := [], tree := none, focus := window_state_focus state }

/-- The SDL events the example's `main` loop dispatches on for its own window.
`keyDown` carries the key sym; `userEvent` carries the registered user event's
code and the node id behind its `data1` pointer. -/
inductive SdlEvent where
  | windowFocusGained
  | windowFocusLost
  | windowMoved
  | windowShown
  | keyDown (sym : Nat)
  | userEvent (code : Int) (target : accesskit_node_id)
  | otherEvent
deriving DecidableEq

/-- One iteration of the SDL example's event loop (`main`): the state after
the event and the list of tree updates sent to the adapter during it. -/
def sdl_handle_event (state : window_state) (event : SdlEvent) :
    window_state × List accesskit_tree_update :=
  match event with
  | .windowFocusGained =>
      let state := { state with is_window_focused := true }
      (state, [build_tree_update_for_focus_update state])
  | .windowFocusLost =>
      let state := { state with is_window_focused := false }
      (state, [build_tree_update_for_focus_update state])
  | .windowMoved => (state, [])
  | .windowShown => (state, [])
  | .keyDown sym =>
      if sym = SDLK_TAB then
        let state :=
          { state with focus :=
              if node_id_cmp state.focus BUTTON_1_ID then BUTTON_2_ID else BUTTON_1_ID }
        (state, [build_tree_update_for_focus_update state])
      else if sym = SDLK_SPACE then
        let pressed := window_state_press_button state state.focus
        (pressed.1, [pressed.2])
      else
        (state, [])
  | .userEvent code target =>
      if node_id_cmp target BUTTON_1_ID || node_id_cmp target BUTTON_2_ID then
        if code = SET_FOCUS_MSG then
          let state := { state with focus := target }
          (state, [build_tree_update_for_focus_update state])
        else if code = DO_DEFAULT_ACTION_MSG then
          let pressed := window_state_press_button state target
          (pressed.1, [pressed.2])
        else
          (state, [])
      else
        (state, [])
  | .otherEvent => (state, [])

/-- `do_action` (SDL variant): the user event it pushes, as the pair of its
`code` and the node id copied onto the heap as `data1`; `none` when no event
is pushed. -/
def do_action (request : accesskit_action_request) :
    Option (Int × accesskit_node_id) :=
  if request.action = .ACCESSKIT_ACTION_FOCUS then
    some (SET_FOCUS_MSG, request.target)
  else if request.action = .ACCESSKIT_ACTION_DEFAULT then
    some (DO_DEFAULT_ACTION_MSG, request.target)
  else
    none

end Sdl

namespace Win

/-- `WM_USER` (0x0400). -/
def WM_USER : Nat := 1024

/-- `SET_FOCUS_MSG = WM_USER`. -/
def SET_FOCUS_MSG : Nat := WM_USER

/-- `DO_DEFAULT_ACTION_MSG = WM_USER + 1`. -/
def DO_DEFAULT_ACTION_MSG : Nat := WM_USER + 1

/-- `VK_TAB` (0x09). -/
def VK_TAB : Nat := 9

/-- `VK_SPACE` (0x20). -/
def VK_SPACE : Nat := 32

/-- The observable data `accesskit_windows_adapter_new` receives from the
example: the initial tree update and the UIA init marker pointer it consumes
(the HWND and the action-handler callback are opaque platform handles). -/
structure accesskit_windows_adapter where
  initial_tree : accesskit_tree_update
  uia_init_marker : Option Nat
deriving DecidableEq

/-- `accesskit_windows_adapter_new`. -/
def accesskit_windows_adapter_new (initial_tree : accesskit_tree_update)
    (uia_init_marker : Option Nat) : accesskit_windows_adapter :=
  { initial_tree := initial_tree, uia_init_marker := uia_init_marker }

/-- The Windows example's `struct window_state`.  The UIA init marker is an
owned pointer embedded as `Option Nat`; `node_classes` is an opaque handle
embedded as a `Nat` token. -/
structure window_state where
  uia_init_marker : Option Nat
  adapter : Option accesskit_windows_adapter
  focus : accesskit_node_id
  is_window_focused : Bool
  announcement : Option String
  node_classes : Nat
deriving DecidableEq

/-- `window_state_focus` (Windows variant). -/
def window_state_focus (state : window_state) : accesskit_opt_node_id :=
  if state.is_window_focused then some state.focus else none

/-- `window_state_build_root` (Windows variant: unlike the SDL variant, it
does not set a name on the window node). -/
def window_state_build_root (state : window_state) : accesskit_node :=
  let builder := accesskit_node_builder_new .ACCESSKIT_ROLE_WINDOW
  let builder := accesskit_node_builder_push_child builder BUTTON_1_ID
  let builder := accesskit_node_builder_push_child builder BUTTON_2_ID
  let builder :=
    match state.announcement with
    | some _ => accesskit_node_builder_push_child builder ANNOUNCEMENT_ID
    | none => builder
  accesskit_node_builder_build builder state.node_classes

/-- `window_state_build_initial_tree` (Windows variant). -/
def window_state_build_initial_tree (state : window_state) : accesskit_tree_update :=
  let root := window_state_build_root state
  let button_1 := build_button BUTTON_1_ID (some BUTTON_1_NAME) state.node_classes
  let button_2 := build_button BUTTON_2_ID (some BUTTON_2_NAME) state.node_classes
  match state.announcement with
  | some a =>
      { ids := [WINDOW_ID, BUTTON_1_ID, BUTTON_2_ID, ANNOUNCEMENT_ID],
        nodes := [root, button_1, button_2,
                  build_announcement (some a) state.node_classes],
        tree := some (accesskit_tree_new WINDOW_ID),
        focus := window_state_focus state }
  | none =>
      { ids := [WINDOW_ID, BUTTON_1_ID, BUTTON_2_ID],
        nodes := [root, button_1, button_2],
        tree := some (accesskit_tree_new WINDOW_ID),
        focus := window_state_focus state }

/-- `do_action` (Windows variant): the message it posts to the window, as the
pair of the message id and the node id copied onto the heap as its `LPARAM`;
`none` when no message is posted. -/
def do_action (request : accesskit_action_request) :
    Option (Nat × accesskit_node_id) :=
  if request.action = .ACCESSKIT_ACTION_FOCUS then
    some (SET_FOCUS_MSG, request.target)
  else if request.action = .ACCESSKIT_ACTION_DEFAULT then
    some (DO_DEFAULT_ACTION_MSG, request.target)
  else
    none

/-- `window_state_get_or_init_accesskit_adapter`: returns the existing adapter,
or constructs one from the initial tree and the UIA init marker (which it
consumes, nulling the field). -/
def window_state_get_or_init_accesskit_adapter (state : window_state) :
    window_state × accesskit_windows_adapter :=
  match state.adapter with
  | some adapter => (state, adapter)
  | none =>
      let initial_tree := window_state_build_initial_tree state
      let adapter := accesskit_windows_adapter_new initial_tree state.uia_init_marker
      let state := { state with adapter := some adapter, uia_init_marker := none }
      (state, adapter)

/-- `window_state_press_button` (Windows variant): mutates the announcement
and, when the adapter already exists, sends it the two-node update. -/
def window_state_press_button (state : window_state) (id : accesskit_node_id) :
    window_state × List accesskit_tree_update :=
  let text := if node_id_cmp id BUTTON_1_ID then BUTTON_1_PRESSED else BUTTON_2_PRESSED
  let state := { state with announcement := some text }
  match state.adapter with
  | some _ =>
      let announcement := build_announcement (some text) state.node_classes
      let root := window_state_build_root state
      (state,
       [{ ids := [ANNOUNCEMENT_ID, WINDOW_ID],
          nodes := [announcement, root],
          tree := none,
          focus := window_state_focus state }])
  | none => (state, [])

/-- `update_focus`: sets `is_window_focused` and, when the adapter already
exists, sends it a zero-node update carrying the current optional focus. -/
def update_focus (state : window_state) (is_window_focused : Bool) :
    window_state × List accesskit_tree_update :=
  let state := { state with is_window_focused := is_window_focused }
  match state.adapter with
  | some _ =>
      (state,
       [{ ids := [], nodes := [], tree := none, focus := window_state_focus state }])
  | none => (state, [])

/-- The window messages `WndProc` dispatches on.  `WM_NCCREATE` carries the
`initial_focus` of the creation params; the two custom messages carry the node
id behind their `LPARAM` pointer; `WM_GETOBJECT` carries its raw
`WPARAM`/`LPARAM`. -/
inductive WinMsg where
  | WM_NCCREATE (initial_focus : accesskit_node_id)
  | WM_PAINT
  | WM_DESTROY
  | WM_GETOBJECT (wParam lParam : Int)
  | WM_SETFOCUS
  | WM_EXITMENULOOP
  | WM_EXITSIZEMOVE
  | WM_KILLFOCUS
  | WM_ENTERMENULOOP
  | WM_ENTERSIZEMOVE
  | WM_KEYDOWN (wParam : Nat)
  | SET_FOCUS (target : accesskit_node_id)
  | DO_DEFAULT_ACTION (target : accesskit_node_id)
  | otherMsg
deriving DecidableEq

/-- The `LRESULT` a `WndProc` case produces: the literal 0, a fall-through to
`DefWindowProc`, or a value returned by the adapter. -/
inductive WndResult where
  | zero
  | defWindowProc
  | lresult (v : Int)
deriving DecidableEq

/-- One `WndProc` call.  `hwgo` is the opaque
`accesskit_windows_adapter_handle_wm_getobject`, a parameter of the model.
The input is the window state behind `GWLP_USERDATA` (`none` when unset or
already destroyed); the output is the state left behind, the tree updates sent
to the adapter, and the `LRESULT`.  Cases other than `WM_NCCREATE`,
`WM_DESTROY` and `WM_GETOBJECT` dereference the state pointer without a NULL
check in the C code; the model returns the state unchanged there. -/
def WndProc (hwgo : accesskit_windows_adapter → Int → Int → Option Int)
    (stateOpt : Option window_state) (msg : WinMsg) :
    Option window_state × List accesskit_tree_update × WndResult :=
  match msg, stateOpt with
  | .WM_NCCREATE initial_focus, _ =>
      (some { uia_init_marker := some 0, adapter := none, focus := initial_focus,
              is_window_focused := false, announcement := none, node_classes := 0 },
       [], .defWindowProc)
  | .WM_PAINT, _ => (stateOpt, [], .zero)
  | .WM_DESTROY, _ => (none, [], .zero)
  | .WM_GETOBJECT _ _, none => (none, [], .defWindowProc)
  | .WM_GETOBJECT wParam lParam, some state =>
      let initialized := window_state_get_or_init_accesskit_adapter state
      match hwgo initialized.2 wParam lParam with
      | some v => (some initialized.1, [], .lresult v)
      | none => (some initialized.1, [], .defWindowProc)
  | .WM_SETFOCUS, some state =>
      let updated := update_focus state true
      (some updated.1, updated.2, .zero)
  | .WM_EXITMENULOOP, some state =>
      let updated := update_focus state true
      (some updated.1, updated.2, .zero)
  | .WM_EXITSIZEMOVE, some state =>
      let updated := update_focus state true
      (some updated.1, updated.2, .zero)
  | .WM_KILLFOCUS, some state =>
      let updated := update_focus state false
      (some updated.1, updated.2, .zero)
  | .WM_ENTERMENULOOP, some state =>
      let updated := update_focus state false
      (some updated.1, updated.2, .zero)
  | .WM_ENTERSIZEMOVE, some state =>
      let updated := update_focus state false
      (some updated.1, updated.2, .zero)
  | .WM_KEYDOWN wParam, some state =>
      if wParam = VK_TAB then
        let state :=
          { state with focus :=
              if node_id_cmp state.focus BUTTON_1_ID then BUTTON_2_ID else BUTTON_1_ID }
        let updated := update_focus state true
        (some updated.1, updated.2, .zero)
      else if wParam = VK_SPACE then
        let pressed := window_state_press_button state state.focus
        (some pressed.1, pressed.2, .zero)
      else
        (some state, [], .defWindowProc)
  | .SET_FOCUS target, some state =>
      if node_id_cmp target BUTTON_1_ID || node_id_cmp target BUTTON_2_ID then
        let state := { state with focus := target }
        let updated := update_focus state state.is_window_focused
        (some updated.1, updated.2, .zero)
      else
        (some state, [], .zero)
  | .DO_DEFAULT_ACTION target, some state =>
      if node_id_cmp target BUTTON_1_ID || node_id_cmp target BUTTON_2_ID then
        let pressed := window_state_press_button state target
        (some pressed.1, pressed.2, .zero)
      else
        (some state, [], .zero)
  | .otherMsg, _ => (stateOpt, [], .defWindowProc)
  | _, none => (none, [], .zero)

end Win

/-- A sample SDL window state used to instantiate universally quantified
theorems: the state right after `window_state_init`. -/
def sdl_state_a : Sdl.window_state := Sdl.window_state_init

/-- A sample SDL window state whose focus is neither button id. -/
def sdl_state_bad_focus : Sdl.window_state :=
  { Sdl.window_state_init with focus := WINDOW_ID }

/-- A sample Windows window state as created by the `WM_NCCREATE` case. -/
def win_state_a : Win.window_state :=
  { uia_init_marker := some 0, adapter := none, focus := BUTTON_1_ID,
    is_window_focused := false, announcement := none, node_classes := 0 }

/-- A sample Windows window state whose adapter has been initialised and whose
window has keyboard focus. -/
def win_state_b : Win.window_state :=
  { (Win.window_state_get_or_init_accesskit_adapter win_state_a).1 with
      is_window_focused := true }

/-- A sample `handle_wm_getobject` oracle that always produces an `LRESULT`. -/
def hwgo_some : Win.accesskit_windows_adapter → Int → Int → Option Int :=
  fun _ _ _ => some 7

/-- A sample `handle_wm_getobject` oracle that never produces an `LRESULT`. -/
def hwgo_none : Win.accesskit_windows_adapter → Int → Int → Option Int :=
  fun _ _ _ => none

/-- Claim C3: in both examples, the root window node built by
`window_state_build_root` has `BUTTON_1_ID` and `BUTTON_2_ID` as its first two
children, followed by `ANNOUNCEMENT_ID` exactly when the announcement field is
non-NULL, and no other children. -/
theorem C3_build_root_children (s : Sdl.window_state) (st : Win.window_state) :
    (Sdl.window_state_build_root s).children =
      [BUTTON_1_ID, BUTTON_2_ID] ++
        (if s.announcement.isSome then [ANNOUNCEMENT_ID] else [])
  ∧ (Win.window_state_build_root st).children =
      [BUTTON_1_ID, BUTTON_2_ID] ++
        (if st.announcement.isSome then [ANNOUNCEMENT_ID] else []) := by
  constructor
  · cases h : s.announcement <;>
      simp [Sdl.window_state_build_root, accesskit_node_builder_new,
        accesskit_node_builder_push_child, accesskit_node_builder_set_name,
        accesskit_node_builder_build, h]
  · cases h : st.announcement <;>
      simp [Win.window_state_build_root, accesskit_node_builder_new,
        accesskit_node_builder_push_child, accesskit_node_builder_build, h]

/-- Claim C4: in both examples, `window_state_build_initial_tree` returns an
update with 4 nodes when the announcement is non-NULL and 3 otherwise, ids in
order `WINDOW_ID, BUTTON_1_ID, BUTTON_2_ID` then optionally `ANNOUNCEMENT_ID`,
the tree field set with `WINDOW_ID` as root, and focus equal to
`window_state_focus` of the state. -/
theorem C4_initial_tree (s : Sdl.window_state) (st : Win.window_state) :
    (Sdl.window_state_build_initial_tree s).ids.length =
      (if s.announcement.isSome then 4 else 3)
  ∧ (Sdl.window_state_build_initial_tree s).nodes.length =
      (if s.announcement.isSome then 4 else 3)
  ∧ (Sdl.window_state_build_initial_tree s).ids =
      [WINDOW_ID, BUTTON_1_ID, BUTTON_2_ID] ++
        (if s.announcement.isSome then [ANNOUNCEMENT_ID] else [])
  ∧ (Sdl.window_state_build_initial_tree s).tree =
      some (accesskit_tree_new WINDOW_ID)
  ∧ (Sdl.window_state_build_initial_tree s).focus = Sdl.window_state_focus s
  ∧ (Win.window_state_build_initial_tree st).ids.length =
      (if st.announcement.isSome then 4 else 3)
  ∧ (Win.window_state_build_initial_tree st).nodes.length =
      (if st.announcement.isSome then 4 else 3)
  ∧ (Win.window_state_build_initial_tree st).ids =
      [WINDOW_ID, BUTTON_1_ID, BUTTON_2_ID] ++
        (if st.announcement.isSome then [ANNOUNCEMENT_ID] else [])
  ∧ (Win.window_state_build_initial_tree st).tree =
      some (accesskit_tree_new WINDOW_ID)
  ∧ (Win.window_state_build_initial_tree st).focus = Win.window_state_focus st := by
  refine ⟨?_, ?_, ?_, ?_, ?_, ?_, ?_, ?_, ?_, ?_⟩ <;>
    cases h : s.announcement <;> cases g : st.announcement <;>
      simp [Sdl.window_state_build_initial_tree,
        Win.window_state_build_initial_tree, h, g]

/-- Claim C1, as stated, is false: applying the Tab handler twice does not
restore the focus field of a state whose focus is `WINDOW_ID` (the handler
maps it to `BUTTON_1_ID` and then to `BUTTON_2_ID`), so the handler is not an
involution on the focus field over all window states. -/
theorem C1_counterexample :
    (Sdl.sdl_handle_event
        (Sdl.sdl_handle_event sdl_state_bad_focus (.keyDown Sdl.SDLK_TAB)).1
        (.keyDown Sdl.SDLK_TAB)).1.focus ≠ sdl_state_bad_focus.focus := by
  decide

/-- Claim C1 (amended): handling a Tab key press sets the focus field to
`BUTTON_2_ID` if it was `BUTTON_1_ID` and to `BUTTON_1_ID` otherwise, and
issues a zero-node focus notification (in the Windows example, sent when the
adapter exists); the handler is an involution on the focus field for the
states whose focus is one of the two button ids. -/
theorem C1_tab (hwgo : Win.accesskit_windows_adapter → Int → Int → Option Int)
    (s : Sdl.window_state) (st : Win.window_state) :
    (Sdl.sdl_handle_event s (.keyDown Sdl.SDLK_TAB)).1.focus =
      (if s.focus = BUTTON_1_ID then BUTTON_2_ID else BUTTON_1_ID)
  ∧ (Sdl.sdl_handle_event s (.keyDown Sdl.SDLK_TAB)).2 =
      [Sdl.build_tree_update_for_focus_update
        (Sdl.sdl_handle_event s (.keyDown Sdl.SDLK_TAB)).1]
  ∧ (Win.WndProc hwgo (some st) (.WM_KEYDOWN Win.VK_TAB)).1.map
        (fun st' => st'.focus) =
      some (if st.focus = BUTTON_1_ID then BUTTON_2_ID else BUTTON_1_ID)
  ∧ (st.adapter.isSome = true →
      (Win.WndProc hwgo (some st) (.WM_KEYDOWN Win.VK_TAB)).2.1 =
        [{ ids := [], nodes := [], tree := none,
           focus := some (if st.focus = BUTTON_1_ID then BUTTON_2_ID
                          else BUTTON_1_ID) }])
  ∧ ((s.focus = BUTTON_1_ID ∨ s.focus = BUTTON_2_ID) →
      (Sdl.sdl_handle_event
        (Sdl.sdl_handle_event s (.keyDown Sdl.SDLK_TAB)).1
        (.keyDown Sdl.SDLK_TAB)).1.focus = s.focus) := by
  refine ⟨?_, ?_, ?_, ?_, ?_⟩
  · by_cases hf : s.focus = BUTTON_1_ID <;>
      simp [Sdl.sdl_handle_event, node_id_cmp, hf]
  · simp [Sdl.sdl_handle_event]
  · by_cases hf : st.focus = BUTTON_1_ID <;>
      cases ha : st.adapter <;>
        simp [Win.WndProc, Win.update_focus, node_id_cmp, hf, ha]
  · intro hsome
    by_cases hf : st.focus = BUTTON_1_ID <;>
      cases ha : st.adapter <;>
        simp_all [Win.WndProc, Win.update_focus, Win.window_state_focus,
          node_id_cmp, hf, ha]
  · rintro (hf | hf) <;>
      simp [Sdl.sdl_handle_event, node_id_cmp, hf, BUTTON_1_ID, BUTTON_2_ID,
        accesskit_node_id_new]

/-- Claim C1 witness: the amended theorem instantiated at the initialised SDL
state and the adapter-bearing Windows sample state. -/
theorem C1_tab_witness :
    win_state_b.adapter.isSome = true
  ∧ (sdl_state_a.focus = BUTTON_1_ID ∨ sdl_state_a.focus = BUTTON_2_ID)
  ∧ (Win.WndProc hwgo_none (some win_state_b) (.WM_KEYDOWN Win.VK_TAB)).2.1 =
      [{ ids := [], nodes := [], tree := none,
         focus := some (if win_state_b.focus = BUTTON_1_ID then BUTTON_2_ID
                        else BUTTON_1_ID) }]
  ∧ (Sdl.sdl_handle_event
      (Sdl.sdl_handle_event sdl_state_a (.keyDown Sdl.SDLK_TAB)).1
      (.keyDown Sdl.SDLK_TAB)).1.focus = sdl_state_a.focus := by
  refine ⟨by decide, Or.inl (by decide), ?_, ?_⟩
  · exact (C1_tab hwgo_none sdl_state_a win_state_b).2.2.2.1 (by decide)
  · exact (C1_tab hwgo_none sdl_state_a win_state_b).2.2.2.2 (Or.inl (by decide))

/-- `update_focus` only touches the `is_window_focused` field. -/
theorem update_focus_state_eq (st : Win.window_state) (b : Bool) :
    (Win.update_focus st b).1 = { st with is_window_focused := b } := by
  cases ha : st.adapter <;> simp [Win.update_focus, ha]

/-- `window_state_get_or_init_accesskit_adapter` only touches the `adapter`
and `uia_init_marker` fields. -/
theorem get_or_init_frame (st : Win.window_state) :
    ((Win.window_state_get_or_init_accesskit_adapter st).1).announcement =
      st.announcement
  ∧ ((Win.window_state_get_or_init_accesskit_adapter st).1).focus = st.focus
  ∧ ((Win.window_state_get_or_init_accesskit_adapter st).1).is_window_focused =
      st.is_window_focused := by
  cases ha : st.adapter <;>
    simp [Win.window_state_get_or_init_accesskit_adapter, ha]

/-- The Windows `window_state_press_button` only touches the announcement. -/
theorem win_press_button_state_eq (st : Win.window_state)
    (id : accesskit_node_id) :
    (Win.window_state_press_button st id).1 =
      { st with
          announcement := some (if id = BUTTON_1_ID then BUTTON_1_PRESSED
                                else BUTTON_2_PRESSED) } := by
  cases ha : st.adapter <;> by_cases h : id = BUTTON_1_ID <;>
    simp [Win.window_state_press_button, node_id_cmp, ha, h]

/-- The SDL `window_state_press_button` only touches the announcement. -/
theorem sdl_press_button_state_eq (s : Sdl.window_state)
    (id : accesskit_node_id) :
    (Sdl.window_state_press_button s id).1 =
      { s with
          announcement := some (if id = BUTTON_1_ID then BUTTON_1_PRESSED
                                else BUTTON_2_PRESSED) } := by
  by_cases h : id = BUTTON_1_ID <;>
    simp [Sdl.window_state_press_button, node_id_cmp, h]

/-- Claim C2: in both examples, pressing a button sets the announcement to
`"You pressed button 1"` when the pressed id is `BUTTON_1_ID` and to
`"You pressed button 2"` for every other id, and the only event-loop steps
that turn a NULL announcement non-NULL are the Space key press and the
do-default-action message, which produce one of those two strings. -/
theorem C2_announcement (s : Sdl.window_state) (st : Win.window_state)
    (id : accesskit_node_id) :
    ((Sdl.window_state_press_button s id).1).announcement =
      some (if id = BUTTON_1_ID then BUTTON_1_PRESSED else BUTTON_2_PRESSED)
  ∧ ((Win.window_state_press_button st id).1).announcement =
      some (if id = BUTTON_1_ID then BUTTON_1_PRESSED else BUTTON_2_PRESSED)
  ∧ (∀ e : Sdl.SdlEvent, s.announcement = none →
      ((Sdl.sdl_handle_event s e).1).announcement ≠ none →
      ((e = .keyDown Sdl.SDLK_SPACE ∨
          ∃ t, e = .userEvent Sdl.DO_DEFAULT_ACTION_MSG t) ∧
        (((Sdl.sdl_handle_event s e).1).announcement = some BUTTON_1_PRESSED ∨
         ((Sdl.sdl_handle_event s e).1).announcement = some BUTTON_2_PRESSED)))
  ∧ (∀ (hwgo : Win.accesskit_windows_adapter → Int → Int → Option Int)
       (m : Win.WinMsg) (st' : Win.window_state), st.announcement = none →
      (Win.WndProc hwgo (some st) m).1 = some st' →
      st'.announcement ≠ none →
      ((m = .WM_KEYDOWN Win.VK_SPACE ∨ ∃ t, m = .DO_DEFAULT_ACTION t) ∧
        (st'.announcement = some BUTTON_1_PRESSED ∨
         st'.announcement = some BUTTON_2_PRESSED))) := by
  refine ⟨?_, ?_, ?_, ?_⟩
  · simp [sdl_press_button_state_eq]
  · simp [win_press_button_state_eq]
  · intro e h1 h2
    cases e with
    | windowFocusGained => simp [Sdl.sdl_handle_event, h1] at h2
    | windowFocusLost => simp [Sdl.sdl_handle_event, h1] at h2
    | windowMoved => simp [Sdl.sdl_handle_event, h1] at h2
    | windowShown => simp [Sdl.sdl_handle_event, h1] at h2
    | otherEvent => simp [Sdl.sdl_handle_event, h1] at h2
    | keyDown sym =>
        by_cases ht : sym = Sdl.SDLK_TAB
        · simp [Sdl.sdl_handle_event, ht, h1] at h2
        · by_cases hs : sym = Sdl.SDLK_SPACE
          · subst hs
            refine ⟨Or.inl rfl, ?_⟩
            by_cases hb : s.focus = BUTTON_1_ID <;>
              simp [Sdl.sdl_handle_event, Sdl.SDLK_SPACE, Sdl.SDLK_TAB,
                sdl_press_button_state_eq, hb]
          · simp [Sdl.sdl_handle_event, ht, hs, h1] at h2
    | userEvent code target =>
        by_cases hg : target = BUTTON_1_ID ∨ target = BUTTON_2_ID
        · by_cases hc : code = Sdl.SET_FOCUS_MSG
          · rcases hg with hb | hb <;>
              simp [Sdl.sdl_handle_event, node_id_cmp, hb, hc, h1] at h2
          · by_cases hd : code = Sdl.DO_DEFAULT_ACTION_MSG
            · subst hd
              refine ⟨Or.inr ⟨target, rfl⟩, ?_⟩
              by_cases hb : target = BUTTON_1_ID
              · simp [Sdl.sdl_handle_event, node_id_cmp, hb, hc,
                  sdl_press_button_state_eq]
              · rcases hg with hb' | hb'
                · exact absurd hb' hb
                · simp [Sdl.sdl_handle_event, node_id_cmp, hb, hb', hc,
                    sdl_press_button_state_eq, BUTTON_1_ID, BUTTON_2_ID,
                    accesskit_node_id_new]
            · rcases hg with hb | hb <;>
                simp [Sdl.sdl_handle_event, node_id_cmp, hb, hc, hd, h1] at h2
        · push_neg at hg
          simp [Sdl.sdl_handle_event, node_id_cmp, hg.1, hg.2, h1] at h2
  · intro hwgo m st' h1 h2 h3
    cases m with
    | WM_NCCREATE f =>
        simp [Win.WndProc] at h2
        rw [← h2] at h3
        simp at h3
    | WM_PAINT =>
        simp [Win.WndProc] at h2
        rw [← h2] at h3
        exact absurd h1 h3
    | WM_DESTROY => simp [Win.WndProc] at h2
    | WM_GETOBJECT w l =>
        cases hr : hwgo (Win.window_state_get_or_init_accesskit_adapter st).2 w l <;>
          simp [Win.WndProc, hr] at h2 <;>
          · rw [← h2] at h3
            rw [(get_or_init_frame st).1] at h3
            exact absurd h1 h3
    | WM_SETFOCUS =>
        simp [Win.WndProc, update_focus_state_eq] at h2
        rw [← h2] at h3
        exact absurd h1 h3
    | WM_EXITMENULOOP =>
        simp [Win.WndProc, update_focus_state_eq] at h2
        rw [← h2] at h3
        exact absurd h1 h3
    | WM_EXITSIZEMOVE =>
        simp [Win.WndProc, update_focus_state_eq] at h2
        rw [← h2] at h3
        exact absurd h1 h3
    | WM_KILLFOCUS =>
        simp [Win.WndProc, update_focus_state_eq] at h2
        rw [← h2] at h3
        exact absurd h1 h3
    | WM_ENTERMENULOOP =>
        simp [Win.WndProc, update_focus_state_eq] at h2
        rw [← h2] at h3
        exact absurd h1 h3
    | WM_ENTERSIZEMOVE =>
        simp [Win.WndProc, update_focus_state_eq] at h2
        rw [← h2] at h3
        exact absurd h1 h3
    | WM_KEYDOWN w =>
        by_cases ht : w = Win.VK_TAB
        · simp [Win.WndProc, ht, update_focus_state_eq] at h2
          rw [← h2] at h3
          exact absurd h1 h3
        · by_cases hs : w = Win.VK_SPACE
          · subst hs
            refine ⟨Or.inl rfl, ?_⟩
            simp [Win.WndProc, Win.VK_SPACE, Win.VK_TAB,
              win_press_button_state_eq] at h2
            rw [← h2]
            by_cases hb : st.focus = BUTTON_1_ID <;> simp [hb]
          · simp [Win.WndProc, ht, hs] at h2
            rw [← h2] at h3
            exact absurd h1 h3
    | SET_FOCUS target =>
        by_cases hg : target = BUTTON_1_ID ∨ target = BUTTON_2_ID
        · rcases hg with hb | hb <;>
            · simp [Win.WndProc, node_id_cmp, hb, update_focus_state_eq] at h2
              rw [← h2] at h3
              exact absurd h1 h3
        · push_neg at hg
          simp [Win.WndProc, node_id_cmp, hg.1, hg.2] at h2
          rw [← h2] at h3
          exact absurd h1 h3
    | DO_DEFAULT_ACTION target =>
        by_cases hg : target = BUTTON_1_ID ∨ target = BUTTON_2_ID
        · refine ⟨Or.inr ⟨target, rfl⟩, ?_⟩
          rcases hg with hb | hb
          · simp [Win.WndProc, node_id_cmp, hb, win_press_button_state_eq] at h2
            rw [← h2]
            simp [hb]
          · by_cases hb1 : target = BUTTON_1_ID
            · simp [Win.WndProc, node_id_cmp, hb1, win_press_button_state_eq] at h2
              rw [← h2]
              simp [hb1]
            · simp [Win.WndProc, node_id_cmp, hb, hb1,
                win_press_button_state_eq] at h2
              rw [← h2]
              simp [hb1, BUTTON_1_ID, BUTTON_2_ID, accesskit_node_id_new]
        · push_neg at hg
          simp [Win.WndProc, node_id_cmp, hg.1, hg.2] at h2
          rw [← h2] at h3
          exact absurd h1 h3
    | otherMsg =>
        simp [Win.WndProc] at h2
        rw [← h2] at h3
        exact absurd h1 h3

/-- Claim C2 witness: the theorem instantiated at the initialised states, the
Space key press and the do-default-action message. -/
theorem C2_announcement_witness :
    sdl_state_a.announcement = none
  ∧ ((Sdl.sdl_handle_event sdl_state_a (.keyDown Sdl.SDLK_SPACE)).1).announcement
      ≠ none
  ∧ (((Sdl.sdl_handle_event sdl_state_a (.keyDown Sdl.SDLK_SPACE)).1).announcement
        = some BUTTON_1_PRESSED ∨
     ((Sdl.sdl_handle_event sdl_state_a (.keyDown Sdl.SDLK_SPACE)).1).announcement
        = some BUTTON_2_PRESSED)
  ∧ ((Win.window_state_press_button win_state_a BUTTON_2_ID).1).announcement =
      some (if BUTTON_2_ID = BUTTON_1_ID then BUTTON_1_PRESSED
            else BUTTON_2_PRESSED) := by
  refine ⟨rfl, by decide, ?_, ?_⟩
  · exact ((C2_announcement sdl_state_a win_state_a BUTTON_2_ID).2.2.1
      (.keyDown Sdl.SDLK_SPACE) rfl (by decide)).2
  · exact (C2_announcement sdl_state_a win_state_a BUTTON_2_ID).2.1

/-- Claim C5: in both examples `window_state_focus` has a value exactly when
`is_window_focused` is true, and that value is the focus field; the window
focus-gained and focus-lost handlers send the adapter a zero-node tree update
whose focus is exactly this optional value (in the Windows example, when the
adapter exists; nothing is sent before it exists). -/
theorem C5_focus (s : Sdl.window_state) (st : Win.window_state) (b : Bool) :
    (Sdl.window_state_focus s).isSome = s.is_window_focused
  ∧ (s.is_window_focused = true → Sdl.window_state_focus s = some s.focus)
  ∧ (Win.window_state_focus st).isSome = st.is_window_focused
  ∧ (st.is_window_focused = true → Win.window_state_focus st = some st.focus)
  ∧ (Sdl.sdl_handle_event s .windowFocusGained).2 =
      [{ ids := [], nodes := [], tree := none,
         focus := Sdl.window_state_focus
           ((Sdl.sdl_handle_event s .windowFocusGained).1) }]
  ∧ (Sdl.sdl_handle_event s .windowFocusLost).2 =
      [{ ids := [], nodes := [], tree := none,
         focus := Sdl.window_state_focus
           ((Sdl.sdl_handle_event s .windowFocusLost).1) }]
  ∧ (st.adapter.isSome = true →
      (Win.update_focus st b).2 =
        [{ ids := [], nodes := [], tree := none,
           focus := Win.window_state_focus ((Win.update_focus st b).1) }])
  ∧ (st.adapter = none → (Win.update_focus st b).2 = []) := by
  refine ⟨?_, ?_, ?_, ?_, ?_, ?_, ?_, ?_⟩
  · cases hf : s.is_window_focused <;> simp [Sdl.window_state_focus, hf]
  · intro hf
    simp [Sdl.window_state_focus, hf]
  · cases hf : st.is_window_focused <;> simp [Win.window_state_focus, hf]
  · intro hf
    simp [Win.window_state_focus, hf]
  · simp [Sdl.sdl_handle_event, Sdl.build_tree_update_for_focus_update]
  · simp [Sdl.sdl_handle_event, Sdl.build_tree_update_for_focus_update]
  · intro ha
    cases hx : st.adapter with
    | none => rw [hx] at ha; simp at ha
    | some a => simp [Win.update_focus, hx]
  · intro hx
    simp [Win.update_focus, hx]

/-- Claim C5 witness: the theorem instantiated at the focused,
adapter-bearing Windows sample state and the initialised SDL state. -/
theorem C5_focus_witness :
    win_state_b.is_window_focused = true
  ∧ win_state_b.adapter.isSome = true
  ∧ Win.window_state_focus win_state_b = some win_state_b.focus
  ∧ (Win.update_focus win_state_b true).2 =
      [{ ids := [], nodes := [], tree := none,
         focus := Win.window_state_focus ((Win.update_focus win_state_b true).1) }] := by
  refine ⟨by decide, by decide, ?_, ?_⟩
  · exact (C5_focus sdl_state_a win_state_b true).2.2.2.1 (by decide)
  · exact (C5_focus sdl_state_a win_state_b true).2.2.2.2.2.2.1 (by decide)

/-- Claim C6: on `WM_GETOBJECT`, `WndProc` falls back to `DefWindowProc` when
the window state pointer is NULL; otherwise it initialises the adapter on
first query and returns the adapter's `LRESULT` when
`accesskit_windows_adapter_handle_wm_getobject` produces one, falling back to
`DefWindowProc` when it does not. -/
theorem C6_wm_getobject
    (hwgo : Win.accesskit_windows_adapter → Int → Int → Option Int)
    (st : Win.window_state) (w l : Int) :
    Win.WndProc hwgo none (.WM_GETOBJECT w l) = (none, [], .defWindowProc)
  ∧ (∀ v,
      hwgo (Win.window_state_get_or_init_accesskit_adapter st).2 w l = some v →
      Win.WndProc hwgo (some st) (.WM_GETOBJECT w l) =
        (some (Win.window_state_get_or_init_accesskit_adapter st).1, [],
         .lresult v))
  ∧ (hwgo (Win.window_state_get_or_init_accesskit_adapter st).2 w l = none →
      Win.WndProc hwgo (some st) (.WM_GETOBJECT w l) =
        (some (Win.window_state_get_or_init_accesskit_adapter st).1, [],
         .defWindowProc))
  ∧ ((Win.window_state_get_or_init_accesskit_adapter st).1).adapter.isSome
      = true := by
  refine ⟨?_, ?_, ?_, ?_⟩
  · simp [Win.WndProc]
  · intro v hv
    simp [Win.WndProc, hv]
  · intro hv
    simp [Win.WndProc, hv]
  · cases ha : st.adapter <;>
      simp [Win.window_state_get_or_init_accesskit_adapter, ha]

/-- Claim C6 witness: the theorem instantiated at the fresh Windows state with
an oracle that answers and one that does not. -/
theorem C6_wm_getobject_witness :
    hwgo_some (Win.window_state_get_or_init_accesskit_adapter win_state_a).2 0 0
      = some 7
  ∧ hwgo_none (Win.window_state_get_or_init_accesskit_adapter win_state_a).2 0 0
      = none
  ∧ Win.WndProc hwgo_some (some win_state_a) (.WM_GETOBJECT 0 0) =
      (some (Win.window_state_get_or_init_accesskit_adapter win_state_a).1, [],
       .lresult 7)
  ∧ Win.WndProc hwgo_none (some win_state_a) (.WM_GETOBJECT 0 0) =
      (some (Win.window_state_get_or_init_accesskit_adapter win_state_a).1, [],
       .defWindowProc) := by
  refine ⟨rfl, rfl, ?_, ?_⟩
  · exact (C6_wm_getobject hwgo_some win_state_a 0 0).2.1 7 rfl
  · exact (C6_wm_getobject hwgo_none win_state_a 0 0).2.2.1 rfl

/-- Claim C7, as stated, is false: the Windows Tab handler calls
`update_focus(hwnd, true)`, which sets `is_window_focused` to true, so on a
state whose window is not focused it mutates a field other than the focus id
and the announcement text. -/
theorem C7_counterexample :
    (Win.WndProc hwgo_none (some win_state_a) (.WM_KEYDOWN Win.VK_TAB)).1.map
        (fun st' => st'.is_window_focused) ≠
      some win_state_a.is_window_focused := by
  decide

/-- Claim C7 (amended): every key-press handler mutates at most the focus id
and the announcement text, each of which ranges over exactly two values once
set (the two button ids, the two press messages); all other fields are
unchanged, except that the Windows Tab handler additionally sets
`is_window_focused` to true. -/
theorem C7_keypress_frame
    (hwgo : Win.accesskit_windows_adapter → Int → Int → Option Int)
    (s : Sdl.window_state) (st : Win.window_state) :
    (Sdl.sdl_handle_event s (.keyDown Sdl.SDLK_TAB)).1 =
      { s with
          focus := if s.focus = BUTTON_1_ID then BUTTON_2_ID else BUTTON_1_ID }
  ∧ (Sdl.sdl_handle_event s (.keyDown Sdl.SDLK_SPACE)).1 =
      { s with
          announcement := some (if s.focus = BUTTON_1_ID then BUTTON_1_PRESSED
                                else BUTTON_2_PRESSED) }
  ∧ (Win.WndProc hwgo (some st) (.WM_KEYDOWN Win.VK_TAB)).1 =
      some { st with
               focus := (if st.focus = BUTTON_1_ID then BUTTON_2_ID
                         else BUTTON_1_ID),
               is_window_focused := true }
  ∧ (Win.WndProc hwgo (some st) (.WM_KEYDOWN Win.VK_SPACE)).1 =
      some { st with
               announcement := some (if st.focus = BUTTON_1_ID
                                     then BUTTON_1_PRESSED
                                     else BUTTON_2_PRESSED) } := by
  refine ⟨?_, ?_, ?_, ?_⟩
  · by_cases hf : s.focus = BUTTON_1_ID <;>
      simp [Sdl.sdl_handle_event, node_id_cmp, hf]
  · simp [Sdl.sdl_handle_event, Sdl.SDLK_SPACE, Sdl.SDLK_TAB,
      sdl_press_button_state_eq]
  · by_cases hf : st.focus = BUTTON_1_ID <;>
      simp [Win.WndProc, node_id_cmp, hf, update_focus_state_eq]
  · simp [Win.WndProc, Win.VK_SPACE, Win.VK_TAB, win_press_button_state_eq]

/-- Claim C8: the initial focus is `BUTTON_1_ID`, and every event handler of
both examples preserves membership of the focus field in
`[BUTTON_1_ID, BUTTON_2_ID]`: Tab maps one element to the other, and the
set-focus message assigns its target only after checking it is one of the two
button ids, leaving the state unchanged otherwise. -/
theorem C8_focus_invariant
    (hwgo : Win.accesskit_windows_adapter → Int → Int → Option Int)
    (s : Sdl.window_state) (st st' : Win.window_state)
    (e : Sdl.SdlEvent) (m : Win.WinMsg) (t : accesskit_node_id) :
    Sdl.window_state_init.focus = BUTTON_1_ID
  ∧ ((s.focus = BUTTON_1_ID ∨ s.focus = BUTTON_2_ID) →
      ((Sdl.sdl_handle_event s e).1.focus = BUTTON_1_ID ∨
       (Sdl.sdl_handle_event s e).1.focus = BUTTON_2_ID))
  ∧ (s.focus = BUTTON_1_ID →
      (Sdl.sdl_handle_event s (.keyDown Sdl.SDLK_TAB)).1.focus = BUTTON_2_ID)
  ∧ (s.focus = BUTTON_2_ID →
      (Sdl.sdl_handle_event s (.keyDown Sdl.SDLK_TAB)).1.focus = BUTTON_1_ID)
  ∧ ((t = BUTTON_1_ID ∨ t = BUTTON_2_ID) →
      (Sdl.sdl_handle_event s (.userEvent Sdl.SET_FOCUS_MSG t)).1.focus = t)
  ∧ (¬(t = BUTTON_1_ID ∨ t = BUTTON_2_ID) →
      Sdl.sdl_handle_event s (.userEvent Sdl.SET_FOCUS_MSG t) = (s, []))
  ∧ ((st.focus = BUTTON_1_ID ∨ st.focus = BUTTON_2_ID) →
      (∀ f, m = .WM_NCCREATE f → (f = BUTTON_1_ID ∨ f = BUTTON_2_ID)) →
      (Win.WndProc hwgo (some st) m).1 = some st' →
      (st'.focus = BUTTON_1_ID ∨ st'.focus = BUTTON_2_ID))
  ∧ (¬(t = BUTTON_1_ID ∨ t = BUTTON_2_ID) →
      Win.WndProc hwgo (some st) (.SET_FOCUS t) =
        (some st, [], .zero)) := by
  refine ⟨rfl, ?_, ?_, ?_, ?_, ?_, ?_, ?_⟩
  · intro hin
    cases e with
    | windowFocusGained => simpa [Sdl.sdl_handle_event] using hin
    | windowFocusLost => simpa [Sdl.sdl_handle_event] using hin
    | windowMoved => simpa [Sdl.sdl_handle_event] using hin
    | windowShown => simpa [Sdl.sdl_handle_event] using hin
    | otherEvent => simpa [Sdl.sdl_handle_event] using hin
    | keyDown sym =>
        by_cases ht : sym = Sdl.SDLK_TAB
        · by_cases hf : s.focus = BUTTON_1_ID <;>
            simp [Sdl.sdl_handle_event, node_id_cmp, ht, hf]
        · by_cases hs : sym = Sdl.SDLK_SPACE
          · simpa [Sdl.sdl_handle_event, ht, hs,
              sdl_press_button_state_eq] using hin
          · simpa [Sdl.sdl_handle_event, ht, hs] using hin
    | userEvent code target =>
        by_cases hg : target = BUTTON_1_ID ∨ target = BUTTON_2_ID
        · by_cases hc : code = Sdl.SET_FOCUS_MSG
          · rcases hg with hb | hb <;>
              simp [Sdl.sdl_handle_event, node_id_cmp, hb, hc]
          · by_cases hd : code = Sdl.DO_DEFAULT_ACTION_MSG
            · rcases hg with hb | hb <;>
                simpa [Sdl.sdl_handle_event, node_id_cmp, hb, hc, hd,
                  sdl_press_button_state_eq] using hin
            · rcases hg with hb | hb <;>
                simpa [Sdl.sdl_handle_event, node_id_cmp, hb, hc, hd] using hin
        · push_neg at hg
          simpa [Sdl.sdl_handle_event, node_id_cmp, hg.1, hg.2] using hin
  · intro hf
    simp [Sdl.sdl_handle_event, node_id_cmp, hf]
  · intro hf
    have hne : s.focus ≠ BUTTON_1_ID := by
      rw [hf]; decide
    simp [Sdl.sdl_handle_event, node_id_cmp, hne]
  · rintro (hb | hb) <;> simp [Sdl.sdl_handle_event, node_id_cmp, hb]
  · intro hg
    push_neg at hg
    simp [Sdl.sdl_handle_event, node_id_cmp, hg.1, hg.2]
  · intro hin hcreate h2
    cases m with
    | WM_NCCREATE f =>
        have hf := hcreate f rfl
        simp [Win.WndProc] at h2
        rw [← h2]
        exact hf
    | WM_PAINT =>
        simp [Win.WndProc] at h2
        rw [← h2]
        exact hin
    | WM_DESTROY => simp [Win.WndProc] at h2
    | WM_GETOBJECT w l =>
        cases hr : hwgo (Win.window_state_get_or_init_accesskit_adapter st).2 w l <;>
          simp [Win.WndProc, hr] at h2 <;>
          · rw [← h2]
            rw [(get_or_init_frame st).2.1]
            exact hin
    | WM_SETFOCUS =>
        simp [Win.WndProc, update_focus_state_eq] at h2
        rw [← h2]
        exact hin
    | WM_EXITMENULOOP =>
        simp [Win.WndProc, update_focus_state_eq] at h2
        rw [← h2]
        exact hin
    | WM_EXITSIZEMOVE =>
        simp [Win.WndProc, update_focus_state_eq] at h2
        rw [← h2]
        exact hin
    | WM_KILLFOCUS =>
        simp [Win.WndProc, update_focus_state_eq] at h2
        rw [← h2]
        exact hin
    | WM_ENTERMENULOOP =>
        simp [Win.WndProc, update_focus_state_eq] at h2
        rw [← h2]
        exact hin
    | WM_ENTERSIZEMOVE =>
        simp [Win.WndProc, update_focus_state_eq] at h2
        rw [← h2]
        exact hin
    | WM_KEYDOWN w =>
        by_cases ht : w = Win.VK_TAB
        · by_cases hf : st.focus = BUTTON_1_ID <;>
            · simp [Win.WndProc, node_id_cmp, ht, hf,
                update_focus_state_eq] at h2
              rw [← h2]
              simp
        · by_cases hs : w = Win.VK_SPACE
          · simp [Win.WndProc, ht, hs, Win.VK_SPACE, Win.VK_TAB,
              win_press_button_state_eq] at h2
            rw [← h2]
            exact hin
          · simp [Win.WndProc, ht, hs] at h2
            rw [← h2]
            exact hin
    | SET_FOCUS target =>
        by_cases hg : target = BUTTON_1_ID ∨ target = BUTTON_2_ID
        · rcases hg with hb | hb <;>
            · simp [Win.WndProc, node_id_cmp, hb, update_focus_state_eq] at h2
              rw [← h2]
              simp
        · push_neg at hg
          simp [Win.WndProc, node_id_cmp, hg.1, hg.2] at h2
          rw [← h2]
          exact hin
    | DO_DEFAULT_ACTION target =>
        by_cases hg : target = BUTTON_1_ID ∨ target = BUTTON_2_ID
        · rcases hg with hb | hb <;>
            · simp [Win.WndProc, node_id_cmp, hb,
                win_press_button_state_eq] at h2
              rw [← h2]
              exact hin
        · push_neg at hg
          simp [Win.WndProc, node_id_cmp, hg.1, hg.2] at h2
          rw [← h2]
          exact hin
    | otherMsg =>
        simp [Win.WndProc] at h2
        rw [← h2]
        exact hin
  · intro hg
    push_neg at hg
    simp [Win.WndProc, node_id_cmp, hg.1, hg.2]

/-- Claim C8 witness: the theorem instantiated at the initialised states, the
Tab key press, a paint message and the out-of-set target `WINDOW_ID`. -/
theorem C8_focus_invariant_witness :
    (sdl_state_a.focus = BUTTON_1_ID ∨ sdl_state_a.focus = BUTTON_2_ID)
  ∧ (win_state_a.focus = BUTTON_1_ID ∨ win_state_a.focus = BUTTON_2_ID)
  ∧ ¬(WINDOW_ID = BUTTON_1_ID ∨ WINDOW_ID = BUTTON_2_ID)
  ∧ ((Sdl.sdl_handle_event sdl_state_a (.keyDown Sdl.SDLK_TAB)).1.focus =
        BUTTON_1_ID ∨
     (Sdl.sdl_handle_event sdl_state_a (.keyDown Sdl.SDLK_TAB)).1.focus =
        BUTTON_2_ID)
  ∧ (win_state_a.focus = BUTTON_1_ID ∨ win_state_a.focus = BUTTON_2_ID)
  ∧ Sdl.sdl_handle_event sdl_state_a (.userEvent Sdl.SET_FOCUS_MSG WINDOW_ID) =
      (sdl_state_a, [])
  ∧ Win.WndProc hwgo_none (some win_state_a) (.SET_FOCUS WINDOW_ID) =
      (some win_state_a, [], .zero) := by
  refine ⟨Or.inl (by decide), Or.inl (by decide), by decide, ?_, ?_, ?_, ?_⟩
  · exact (C8_focus_invariant hwgo_none sdl_state_a win_state_a win_state_a
      (.keyDown Sdl.SDLK_TAB) .WM_PAINT WINDOW_ID).2.1 (Or.inl (by decide))
  · exact (C8_focus_invariant hwgo_none sdl_state_a win_state_a win_state_a
      .otherEvent .WM_PAINT WINDOW_ID).2.2.2.2.2.2.1 (Or.inl (by decide))
      (fun f hf => nomatch hf) (by decide)
  · exact (C8_focus_invariant hwgo_none sdl_state_a win_state_a win_state_a
      .otherEvent .WM_PAINT WINDOW_ID).2.2.2.2.2.1 (by decide)
  · exact (C8_focus_invariant hwgo_none sdl_state_a win_state_a win_state_a
      .otherEvent .WM_PAINT WINDOW_ID).2.2.2.2.2.2.2 (by decide)

/-- Claim C9: in both examples `do_action` posts an event/message if and only
if the request's action is `ACCESSKIT_ACTION_FOCUS` (posting the set-focus
message) or `ACCESSKIT_ACTION_DEFAULT` (posting the do-default-action
message), each carrying a copy of the request's target id; every other action
posts nothing. -/
theorem C9_do_action (req : accesskit_action_request) :
    ((Sdl.do_action req).isSome = true ↔
      (req.action = .ACCESSKIT_ACTION_FOCUS ∨
       req.action = .ACCESSKIT_ACTION_DEFAULT))
  ∧ (req.action = .ACCESSKIT_ACTION_FOCUS →
      Sdl.do_action req = some (Sdl.SET_FOCUS_MSG, req.target))
  ∧ (req.action = .ACCESSKIT_ACTION_DEFAULT →
      Sdl.do_action req = some (Sdl.DO_DEFAULT_ACTION_MSG, req.target))
  ∧ (req.action ≠ .ACCESSKIT_ACTION_FOCUS →
      req.action ≠ .ACCESSKIT_ACTION_DEFAULT →
      Sdl.do_action req = none)
  ∧ ((Win.do_action req).isSome = true ↔
      (req.action = .ACCESSKIT_ACTION_FOCUS ∨
       req.action = .ACCESSKIT_ACTION_DEFAULT))
  ∧ (req.action = .ACCESSKIT_ACTION_FOCUS →
      Win.do_action req = some (Win.SET_FOCUS_MSG, req.target))
  ∧ (req.action = .ACCESSKIT_ACTION_DEFAULT →
      Win.do_action req = some (Win.DO_DEFAULT_ACTION_MSG, req.target))
  ∧ (req.action ≠ .ACCESSKIT_ACTION_FOCUS →
      req.action ≠ .ACCESSKIT_ACTION_DEFAULT →
      Win.do_action req = none) := by
  refine ⟨?_, ?_, ?_, ?_, ?_, ?_, ?_, ?_⟩ <;>
    cases req with
    | mk action target =>
        cases action <;> simp [Sdl.do_action, Win.do_action]

/-- Claim C9 witness: the theorem instantiated at a focus request, a default
request and a request with another action, each targeting `BUTTON_2_ID`. -/
theorem C9_do_action_witness :
    Sdl.do_action { action := .ACCESSKIT_ACTION_FOCUS, target := BUTTON_2_ID } =
      some (Sdl.SET_FOCUS_MSG, BUTTON_2_ID)
  ∧ Win.do_action { action := .ACCESSKIT_ACTION_DEFAULT, target := BUTTON_2_ID } =
      some (Win.DO_DEFAULT_ACTION_MSG, BUTTON_2_ID)
  ∧ Sdl.do_action { action := .ACCESSKIT_ACTION_OTHER 5, target := BUTTON_2_ID } =
      none
  ∧ Win.do_action { action := .ACCESSKIT_ACTION_OTHER 5, target := BUTTON_2_ID } =
      none := by
  refine ⟨?_, ?_, ?_, ?_⟩
  · exact (C9_do_action
      { action := .ACCESSKIT_ACTION_FOCUS, target := BUTTON_2_ID }).2.1 rfl
  · exact (C9_do_action
      { action := .ACCESSKIT_ACTION_DEFAULT, target := BUTTON_2_ID }).2.2.2.2.2.2.1
      rfl
  · exact (C9_do_action
      { action := .ACCESSKIT_ACTION_OTHER 5, target := BUTTON_2_ID }).2.2.2.1
      (by decide) (by decide)
  · exact (C9_do_action
      { action := .ACCESSKIT_ACTION_OTHER 5, target := BUTTON_2_ID }).2.2.2.2.2.2.2
      (by decide) (by decide)

/-- Claim C10: `window_state_get_or_init_accesskit_adapter` is idempotent: a
first call with a NULL adapter field constructs the adapter from the initial
tree and the UIA init marker, consuming the marker (the field becomes NULL);
a call with an existing adapter returns that same adapter without modifying
any field; so the marker is passed to adapter construction exactly once. -/
theorem C10_get_or_init (st : Win.window_state) :
    (st.adapter = none →
      Win.window_state_get_or_init_accesskit_adapter st =
        ({ st with
             adapter := some (Win.accesskit_windows_adapter_new
               (Win.window_state_build_initial_tree st) st.uia_init_marker),
             uia_init_marker := none },
         Win.accesskit_windows_adapter_new
           (Win.window_state_build_initial_tree st) st.uia_init_marker))
  ∧ (∀ a, st.adapter = some a →
      Win.window_state_get_or_init_accesskit_adapter st = (st, a))
  ∧ Win.window_state_get_or_init_accesskit_adapter
      (Win.window_state_get_or_init_accesskit_adapter st).1 =
      ((Win.window_state_get_or_init_accesskit_adapter st).1,
       (Win.window_state_get_or_init_accesskit_adapter st).2) := by
  refine ⟨?_, ?_, ?_⟩
  · intro ha
    simp [Win.window_state_get_or_init_accesskit_adapter,
      Win.accesskit_windows_adapter_new, ha]
  · intro a ha
    simp [Win.window_state_get_or_init_accesskit_adapter, ha]
  · cases ha : st.adapter <;>
      simp [Win.window_state_get_or_init_accesskit_adapter, ha]

/-- Claim C10 witness: the theorem instantiated at the fresh Windows state
(NULL adapter) and at the state the first call produces. -/
theorem C10_get_or_init_witness :
    win_state_a.adapter = none
  ∧ Win.window_state_get_or_init_accesskit_adapter win_state_a =
      ({ win_state_a with
           adapter := some (Win.accesskit_windows_adapter_new
             (Win.window_state_build_initial_tree win_state_a)
             win_state_a.uia_init_marker),
           uia_init_marker := none },
       Win.accesskit_windows_adapter_new
         (Win.window_state_build_initial_tree win_state_a)
         win_state_a.uia_init_marker)
  ∧ Win.window_state_get_or_init_accesskit_adapter
      (Win.window_state_get_or_init_accesskit_adapter win_state_a).1 =
      ((Win.window_state_get_or_init_accesskit_adapter win_state_a).1,
       (Win.window_state_get_or_init_accesskit_adapter win_state_a).2) := by
  refine ⟨rfl, ?_, ?_⟩
  · exact (C10_get_or_init win_state_a).1 rfl
  · exact (C10_get_or_init win_state_a).2.2
